import Mathlib

/-!
Shallow embedding of `ice_melt` from the VIC lake model (IceMelt.c) and
proofs about its mass accounting, branching and error handling.

C doubles are modelled as exact rationals.  The external numerical
primitives, which the repository spec treats as black-box collaborators,
are modelled as pure parameters:
* `eb : ℚ → EBOut` gives the outputs of one evaluation of the energy
  balance residual (`IceEnergyBalance`, reached through
  `CalcIcePackEnergyBalance`) at a trial surface temperature, everything
  else being fixed for the duration of one `ice_melt` call;
* `rb : ℚ` is the surface temperature returned by `root_brent`;
* `deltaCC : ℚ` is the cold-content change written by `icerad`
  (its other two outputs are consumed only by the abstracted energy
  balance calls and so do not appear in the model).
The physical constants from the VIC headers are threaded through a
`Consts` record instead of being baked in.
-/

namespace VIC

/-- Outputs of one evaluation of the energy-balance residual
(`IceEnergyBalance` via `CalcIcePackEnergyBalance`): the returned net
energy `Qnet` together with the values written through the output
pointers of the call. -/
structure EBOut where
  Qnet : ℚ
  RefreezeEnergy : ℚ
  vapor_flux : ℚ
  blowing_flux : ℚ
  surface_flux : ℚ
  advection : ℚ
  SnowFlux : ℚ
  latent_heat : ℚ
  sensible_heat : ℚ
  LWnet : ℚ
  deriving DecidableEq, Inhabited

/-- The fields of `snow_data_struct` that `ice_melt` reads or writes
(plus `pack_water`, `pack_temp` and `melt_energy`, which its header
comment lists but which the body never touches). -/
structure snow_data_struct where
  surf_temp : ℚ
  surf_water : ℚ
  pack_water : ℚ
  pack_temp : ℚ
  swq : ℚ
  vapor_flux : ℚ
  blowing_flux : ℚ
  surface_flux : ℚ
  mass_error : ℚ
  melt_energy : ℚ
  deriving DecidableEq, Inhabited

/-- The fields of `lake_var_struct` that `ice_melt` reads or writes;
`surface0` models `lake->surface[0]`. -/
structure lake_var_struct where
  hice : ℚ
  fraci : ℚ
  volume : ℚ
  surface0 : ℚ
  deriving DecidableEq, Inhabited

/-- The physical constants used by `ice_melt` (from the VIC headers). -/
structure Consts where
  RHOICE : ℚ
  RHO_W : ℚ
  Lf : ℚ
  SECPHOUR : ℚ
  LIQUID_WATER_CAPACITY : ℚ
  deriving DecidableEq, Inhabited

/-- Sanity conditions on the physical constants (all densities, the
latent heat of fusion and the length of an hour are positive, the
liquid water capacity fraction is nonnegative). -/
def Consts.ok (C : Consts) : Prop :=
  0 < C.RHOICE ∧ 0 < C.RHO_W ∧ 0 < C.Lf ∧ 0 < C.SECPHOUR ∧
    0 ≤ C.LIQUID_WATER_CAPACITY

instance (C : Consts) : Decidable C.ok := by
  unfold Consts.ok; infer_instance

/-- The mutable locals of `ice_melt` threaded through the steps of the
computation, together with the two state structures. -/
structure MeltSt where
  snow : snow_data_struct
  lake : lake_var_struct
  SnowIce : ℚ
  LakeIce : ℚ
  SnowMelt : ℚ
  IceMelt : ℚ
  RefrozenWater : ℚ
  melt_energy : ℚ
  RefreezeEnergy : ℚ
  deriving DecidableEq, Inhabited

/-- Everything `ice_melt` hands back to its caller on normal completion:
the two mutated state structures, `melt[0]` (mm), the `save_*` output
parameters, and (as observations of locals that the spec's claims talk
about) the final lake ice water equivalent `LakeIce`, the accumulated
`IceMelt` and the local `melt_energy` accumulator. -/
structure IceMeltOut where
  snow : snow_data_struct
  lake : lake_var_struct
  melt : ℚ
  save_advection : ℚ
  save_deltaCC : ℚ
  save_SnowFlux : ℚ
  save_latent : ℚ
  save_sensible : ℚ
  save_Qnet : ℚ
  save_refreeze_energy : ℚ
  save_LWnet : ℚ
  LakeIce : ℚ
  IceMelt : ℚ
  melt_energy : ℚ
  deriving DecidableEq, Inhabited

/-- Result of one `ice_melt` call: either the fatal diagnostic path
(`ErrorIcePackEnergyBalance` prints the full parameter dump and calls
`exit`, so no state is returned; the payload records the solver result
that triggered it), or normal completion. -/
inductive IceMeltResult where
  | fatal (surf_temp : ℚ)
  | ok (out : IceMeltOut)
  deriving DecidableEq, Inhabited

/-- Lines 168-196 of IceMelt.c: unit conversion of the precipitation
forcing, initialisation of the locals `SnowIce` (snow-pack ice mass),
`LakeIce` (lake ice in water equivalent), distribution of fresh
snowfall into `SnowIce` and of rainfall into `snow->surf_water`, and
zeroing of `snow->blowing_flux`. -/
def initState (C : Consts) (snow : snow_data_struct) (lake : lake_var_struct)
    (rainfall snowfall : ℚ) : MeltSt :=
  { snow := { snow with surf_water := snow.surf_water + rainfall / 1000, blowing_flux := 0 }
    lake := lake
    SnowIce := snow.swq - snow.surf_water + snowfall / 1000
    LakeIce := lake.hice * C.RHOICE / C.RHO_W
    SnowMelt := 0
    IceMelt := 0
    RefrozenWater := 0
    melt_energy := 0
    RefreezeEnergy := 0 }

/-- Lines 213-215 and 341-343 of IceMelt.c: copy the vapor and surface
fluxes written by an energy-balance call back into the snow structure
and keep its refreeze energy. -/
def applyEB (e : EBOut) (st : MeltSt) : MeltSt :=
  { st with
    snow := { st.snow with vapor_flux := e.vapor_flux, surface_flux := e.surface_flux }
    RefreezeEnergy := e.RefreezeEnergy }

/-- The uncapped refrozen water computed from the refreeze energy
(line 221 of IceMelt.c). -/
def RefrozenWater0 (C : Consts) (delta_t : ℚ) (st : MeltSt) : ℚ :=
  st.RefreezeEnergy / (C.Lf * C.RHO_W) * delta_t * C.SECPHOUR

/-- The refrozen water after the cap at the available surface liquid
(lines 221-227). -/
def refrozenWater (C : Consts) (delta_t : ℚ) (st : MeltSt) : ℚ :=
  if st.snow.surf_water < RefrozenWater0 C delta_t st then st.snow.surf_water
  else RefrozenWater0 C delta_t st

/-- The refreeze energy, recomputed consistently when the refrozen water
was capped (lines 221-227). -/
def refreezeEnergyCapped (C : Consts) (delta_t : ℚ) (st : MeltSt) : ℚ :=
  if st.snow.surf_water < RefrozenWater0 C delta_t st then
    st.snow.surf_water * C.Lf * C.RHO_W / (delta_t * C.SECPHOUR)
  else st.RefreezeEnergy

/-- Lines 218-241 of IceMelt.c (start of the isothermal branch): set the
surface temperature to 0; if the refreeze energy is nonnegative, refreeze
surface liquid water (capped at the available liquid, recomputing the
energy when capped), else compute the snow melt from the magnitude of the
refreeze energy. -/
def refreezeStep (C : Consts) (delta_t : ℚ) (st : MeltSt) : MeltSt :=
  if 0 ≤ st.RefreezeEnergy then
    { st with
      snow := { st.snow with
                surf_temp := 0
                swq := st.snow.swq + refrozenWater C delta_t st
                surf_water := st.snow.surf_water - refrozenWater C delta_t st }
      melt_energy := st.melt_energy + refreezeEnergyCapped C delta_t st
      SnowIce := st.SnowIce + refrozenWater C delta_t st
      RefrozenWater := refrozenWater C delta_t st
      RefreezeEnergy := refreezeEnergyCapped C delta_t st
      SnowMelt := 0 }
  else
    { st with
      snow := { st.snow with surf_temp := 0 }
      SnowMelt := |st.RefreezeEnergy| / (C.Lf * C.RHO_W) * delta_t * C.SECPHOUR
      melt_energy := st.melt_energy + st.RefreezeEnergy }

/-- Lines 245-269 of IceMelt.c (isothermal branch): adjust the three
reservoirs (snow ice, surface liquid, lake ice) for the vapor flux. -/
def vaporAdjust3 (fracprv : ℚ) (st : MeltSt) : MeltSt :=
  if st.SnowIce + st.snow.surf_water + st.LakeIce < -(st.snow.vapor_flux) then
    { st with
      snow := { st.snow with
                blowing_flux := st.snow.blowing_flux *
                  (-(st.SnowIce + st.snow.surf_water + st.LakeIce) / st.snow.vapor_flux)
                vapor_flux := -(st.SnowIce + st.snow.surf_water + st.LakeIce)
                surface_flux := -(st.SnowIce + st.snow.surf_water + st.LakeIce) -
                  st.snow.blowing_flux *
                    (-(st.SnowIce + st.snow.surf_water + st.LakeIce) / st.snow.vapor_flux) }
      lake := { st.lake with
                volume := st.lake.volume - st.LakeIce * fracprv * st.lake.surface0 }
      LakeIce := 0
      SnowIce := 0 }
  else if st.SnowIce + st.snow.surf_water < -(st.snow.vapor_flux) ∧
          st.SnowIce + st.snow.surf_water + st.LakeIce > -(st.snow.vapor_flux) then
    { st with
      lake := { st.lake with
                volume := st.lake.volume +
                  st.lake.surface0 * fracprv * (st.snow.vapor_flux + st.SnowIce) }
      LakeIce := st.LakeIce + (st.snow.vapor_flux + st.SnowIce)
      SnowIce := 0 }
  else
    if st.snow.surf_water < -(st.snow.vapor_flux) then
      { st with
        SnowIce := st.SnowIce + (st.snow.vapor_flux + st.snow.surf_water)
        snow := { st.snow with surf_water := 0 } }
    else
      { st with snow := { st.snow with surf_water := st.snow.surf_water + st.snow.vapor_flux } }

/-- Lines 271-291 of IceMelt.c (isothermal branch): partition the
computed snow melt against the snow ice and then the lake ice. -/
def meltPartition (st : MeltSt) : MeltSt :=
  if st.SnowMelt < st.SnowIce then
    { st with
      snow := { st.snow with surf_water := st.snow.surf_water + st.SnowMelt }
      SnowIce := st.SnowIce - st.SnowMelt }
  else if st.SnowMelt ≥ st.SnowIce ∧ st.SnowMelt < st.SnowIce + st.LakeIce then
    { st with
      snow := { st.snow with surf_water := st.snow.surf_water + st.SnowIce }
      LakeIce := st.LakeIce - (st.SnowMelt - st.SnowIce)
      IceMelt := st.SnowMelt - st.SnowIce
      SnowIce := 0 }
  else
    { st with
      SnowMelt := st.SnowIce + st.LakeIce
      snow := { st.snow with surf_water := st.snow.surf_water + st.SnowIce }
      IceMelt := st.LakeIce
      SnowIce := 0
      LakeIce := 0 }

/-- Lines 298 and 328-343 of IceMelt.c (subfreezing branch): store the
solver result as the new surface temperature and apply the outputs of
the final energy-balance evaluation at that temperature. -/
def solveApply (rb : ℚ) (e : EBOut) (st : MeltSt) : MeltSt :=
  applyEB e { st with snow := { st.snow with surf_temp := rb } }

/-- Lines 345-356 of IceMelt.c (subfreezing branch): all surface liquid
water freezes into the snow ice, the corresponding freeze energy is
accumulated, surface liquid water and snow melt are zeroed. -/
def freezeAll (C : Consts) (delta_t : ℚ) (st : MeltSt) : MeltSt :=
  { st with
    SnowMelt := 0
    SnowIce := st.SnowIce + st.snow.surf_water
    melt_energy := st.melt_energy +
      st.snow.surf_water * C.Lf * C.RHO_W / (delta_t * C.SECPHOUR)
    RefrozenWater := st.snow.surf_water
    snow := { st.snow with surf_water := 0 } }

/-- Lines 359-380 of IceMelt.c (subfreezing branch): adjust the two
remaining reservoirs (snow ice, lake ice) for the vapor flux. -/
def vaporAdjust2 (fracprv : ℚ) (st : MeltSt) : MeltSt :=
  if st.SnowIce + st.LakeIce < -(st.snow.vapor_flux) then
    { st with
      snow := { st.snow with
                blowing_flux := st.snow.blowing_flux *
                  (-(st.SnowIce + st.LakeIce) / st.snow.vapor_flux)
                vapor_flux := -(st.SnowIce + st.LakeIce)
                surface_flux := -(st.SnowIce + st.LakeIce) -
                  st.snow.blowing_flux * (-(st.SnowIce + st.LakeIce) / st.snow.vapor_flux) }
      lake := { st.lake with
                volume := st.lake.volume - st.lake.surface0 * fracprv * st.LakeIce }
      LakeIce := 0
      SnowIce := 0 }
  else if st.SnowIce < -(st.snow.vapor_flux) ∧
          st.SnowIce + st.LakeIce > -(st.snow.vapor_flux) then
    { st with
      lake := { st.lake with
                volume := st.lake.volume +
                  st.lake.surface0 * fracprv * (st.snow.vapor_flux + st.SnowIce) }
      LakeIce := st.LakeIce + (st.snow.vapor_flux + st.SnowIce)
      SnowIce := 0 }
  else
    if 0 < st.SnowIce then
      { st with SnowIce := st.SnowIce + st.snow.vapor_flux }
    else
      { st with
        lake := { st.lake with
                  volume := st.lake.volume + st.lake.surface0 * fracprv * st.snow.vapor_flux } }

/-- The maximum liquid water the surface layer can hold (line 387). -/
def MaxLiquidWater (C : Consts) (st : MeltSt) : ℚ :=
  C.LIQUID_WATER_CAPACITY * st.SnowIce

/-- The melt output in meters (line 389 / 393): the excess of the
surface liquid water over the cap. -/
def meltExcess (C : Consts) (st : MeltSt) : ℚ :=
  if MaxLiquidWater C st < st.snow.surf_water
  then st.snow.surf_water - MaxLiquidWater C st else 0

/-- The capped surface liquid water (lines 388-393). -/
def cappedSurfWater (C : Consts) (st : MeltSt) : ℚ :=
  if MaxLiquidWater C st < st.snow.surf_water
  then MaxLiquidWater C st else st.snow.surf_water

/-- The recomputed lake ice thickness before the clamp (line 398). -/
def hiceRaw (C : Consts) (st : MeltSt) : ℚ :=
  st.LakeIce * C.RHO_W / C.RHOICE

/-- Lines 387-437 of IceMelt.c (common tail of both branches): cap the
surface liquid water at `LIQUID_WATER_CAPACITY * SnowIce` with the
excess becoming melt output, recompute `snow->swq` and `lake->hice`
(zeroing thickness and ice fraction when the thickness is not positive),
compute the mass balance diagnostic, convert the melt output to mm, flip
the sign of the stored vapor flux and fill the `save_*` outputs from the
last energy-balance evaluation `e`. -/
def finishStep (C : Consts) (InitialSwq InitialIce RainFall SnowFall deltaCC : ℚ)
    (e : EBOut) (st : MeltSt) : IceMeltOut :=
  { snow := { st.snow with
              surf_water := cappedSurfWater C st
              swq := st.SnowIce + cappedSurfWater C st
              mass_error := (InitialSwq - (st.SnowIce + cappedSurfWater C st)) +
                (InitialIce - st.LakeIce) + (RainFall + SnowFall) -
                st.IceMelt - meltExcess C st + st.snow.vapor_flux
              vapor_flux := st.snow.vapor_flux * (-1) }
    lake := { st.lake with
              hice := if hiceRaw C st ≤ 0 then 0 else hiceRaw C st
              fraci := if hiceRaw C st ≤ 0 then 0 else st.lake.fraci }
    melt := meltExcess C st * 1000
    save_advection := e.advection
    save_deltaCC := deltaCC
    save_SnowFlux := e.SnowFlux
    save_latent := e.latent_heat
    save_sensible := e.sensible_heat
    save_Qnet := e.Qnet
    save_refreeze_energy := e.RefreezeEnergy
    save_LWnet := e.LWnet
    LakeIce := st.LakeIce
    IceMelt := st.IceMelt
    melt_energy := st.melt_energy }

/-- The `ice_melt` step of IceMelt.c (lines 100-439), with the external
primitives abstracted as described at the top of the file: evaluate the
energy balance at a trial surface temperature of 0; if the returned net
energy `Qnet` is exactly zero take the isothermal branch, otherwise use
the root solver result `rb` as the subfreezing surface temperature,
entering the fatal diagnostic path when it is the non-convergence
sentinel (at or below -9998). -/
def ice_melt (C : Consts) (eb : ℚ → EBOut) (rb : ℚ)
    (snow : snow_data_struct) (lake : lake_var_struct)
    (delta_t rainfall snowfall fracprv deltaCC : ℚ) : IceMeltResult :=
  if (eb 0).Qnet = 0 then
    IceMeltResult.ok (finishStep C snow.swq (lake.hice * C.RHOICE / C.RHO_W)
      (rainfall / 1000) (snowfall / 1000) deltaCC (eb 0)
      (meltPartition (vaporAdjust3 fracprv
        (refreezeStep C delta_t (applyEB (eb 0) (initState C snow lake rainfall snowfall))))))
  else if rb ≤ -9998 then
    IceMeltResult.fatal rb
  else
    IceMeltResult.ok (finishStep C snow.swq (lake.hice * C.RHOICE / C.RHO_W)
      (rainfall / 1000) (snowfall / 1000) deltaCC (eb rb)
      (vaporAdjust2 fracprv (freezeAll C delta_t
        (solveApply rb (eb rb) (applyEB (eb 0) (initState C snow lake rainfall snowfall))))))

/-- Total water mass (in water equivalent) held by the three reservoirs
the step accounts for: snow ice, surface liquid water and lake ice. -/
def wsum (st : MeltSt) : ℚ :=
  st.SnowIce + st.snow.surf_water + st.LakeIce

/-- State of the isothermal branch just before its vapor flux
adjustment (after the refreeze/melt computation). -/
def stageA (C : Consts) (eb : ℚ → EBOut) (snow : snow_data_struct)
    (lake : lake_var_struct) (delta_t rainfall snowfall : ℚ) : MeltSt :=
  refreezeStep C delta_t (applyEB (eb 0) (initState C snow lake rainfall snowfall))

/-- State of the subfreezing branch just before its vapor flux
adjustment (after all surface liquid water has frozen). -/
def stageB (C : Consts) (eb : ℚ → EBOut) (rb : ℚ) (snow : snow_data_struct)
    (lake : lake_var_struct) (delta_t rainfall snowfall : ℚ) : MeltSt :=
  freezeAll C delta_t
    (solveApply rb (eb rb) (applyEB (eb 0) (initState C snow lake rainfall snowfall)))

/-- Preconditions of the step as stated by the spec, plus nonnegative
precipitation forcing. -/
def Preconds (snow : snow_data_struct) (lake : lake_var_struct)
    (delta_t rainfall snowfall : ℚ) : Prop :=
  0 < delta_t ∧ 0 ≤ snow.surf_water ∧ snow.surf_water ≤ snow.swq ∧
    0 ≤ lake.hice ∧ 0 ≤ rainfall ∧ 0 ≤ snowfall

instance (snow : snow_data_struct) (lake : lake_var_struct)
    (delta_t rainfall snowfall : ℚ) :
    Decidable (Preconds snow lake delta_t rainfall snowfall) := by
  unfold Preconds; infer_instance

/-- Surface temperature observed on either outcome of the step. -/
def resultSurfTemp : IceMeltResult → ℚ
  | IceMeltResult.fatal t => t
  | IceMeltResult.ok o => o.snow.surf_temp

/-- Stored mass balance diagnostic observed on either outcome. -/
def resultMassError : IceMeltResult → ℚ
  | IceMeltResult.fatal _ => 0
  | IceMeltResult.ok o => o.snow.mass_error

/-- Final snow water equivalent observed on either outcome. -/
def resultSwq : IceMeltResult → ℚ
  | IceMeltResult.fatal _ => 0
  | IceMeltResult.ok o => o.snow.swq

/-- The payload of a normal completion. -/
def okOutput : IceMeltResult → IceMeltOut
  | IceMeltResult.fatal _ => default
  | IceMeltResult.ok o => o

/-! ### Concrete fixtures used by witnesses and counterexamples -/

/-- The VIC constants: `RHOICE = 917`, `RHO_W = 1000`, `Lf = 3.337e5`,
`SECPHOUR = 3600`, `LIQUID_WATER_CAPACITY = 0.035`. -/
def Cstd : Consts :=
  { RHOICE := 917, RHO_W := 1000, Lf := 333700, SECPHOUR := 3600,
    LIQUID_WATER_CAPACITY := 7/200 }

/-- A benign concrete snow state. -/
def sEx : snow_data_struct :=
  { surf_temp := -1, surf_water := 1/100, pack_water := 3, pack_temp := -2,
    swq := 2/100, vapor_flux := 0, blowing_flux := 0, surface_flux := 0,
    mass_error := 0, melt_energy := 5 }

/-- A benign concrete lake state. -/
def lEx : lake_var_struct := { hice := 1/10, fraci := 1, volume := 1000, surface0 := 100 }

/-- An energy balance whose net energy at every trial temperature is
exactly zero (isothermal branch) with no fluxes. -/
def ebIso : ℚ → EBOut := fun _ =>
  { Qnet := 0, RefreezeEnergy := 0, vapor_flux := 0, blowing_flux := 0,
    surface_flux := 0, advection := 0, SnowFlux := 0, latent_heat := 0,
    sensible_heat := 0, LWnet := 0 }

/-- An energy balance returning strictly positive net energy. -/
def ebPos : ℚ → EBOut := fun _ =>
  { Qnet := 1, RefreezeEnergy := 0, vapor_flux := 0, blowing_flux := 0,
    surface_flux := 0, advection := 0, SnowFlux := 0, latent_heat := 0,
    sensible_heat := 0, LWnet := 0 }

/-- The complete melt-through scenario of the spec: snow ice 0.002 m,
lake ice 0.01 m, computed snowmelt 0.02 m. -/
def stC5 : MeltSt :=
  { snow := sEx, lake := lEx, SnowIce := 1/500, LakeIce := 1/100,
    SnowMelt := 1/50, IceMelt := 0, RefrozenWater := 0, melt_energy := 0,
    RefreezeEnergy := 0 }

/-- The reservoir-priority scenario of the spec: snow ice 0.01 m, lake
ice 0.05 m, no surface liquid, sublimation vapor flux of magnitude
0.03 m. -/
def stC4w : MeltSt :=
  { snow := { sEx with vapor_flux := -3/100, surf_water := 0 },
    lake := lEx, SnowIce := 1/100, LakeIce := 5/100, SnowMelt := 0, IceMelt := 0,
    RefrozenWater := 0, melt_energy := 0, RefreezeEnergy := 0 }

/-- A state entering the total-exhaustion case of the vapor adjustment:
no snow ice, no surface liquid, lake ice 0.01 m, vapor flux -0.02 m. -/
def stC4 : MeltSt :=
  { snow := { sEx with vapor_flux := -2/100, surf_water := 0, blowing_flux := 0 },
    lake := lEx, SnowIce := 0, LakeIce := 1/100, SnowMelt := 0, IceMelt := 0,
    RefrozenWater := 0, melt_energy := 0, RefreezeEnergy := 0 }

/-! ### Frame lemmas: fields the step never writes -/

/-- The snow fields `pack_water`, `pack_temp`, `melt_energy` and the
lake field `surface0` agree between two intermediate states. -/
def FrameEq (st st2 : MeltSt) : Prop :=
  st2.snow.pack_water = st.snow.pack_water ∧
  st2.snow.pack_temp = st.snow.pack_temp ∧
  st2.snow.melt_energy = st.snow.melt_energy ∧
  st2.lake.surface0 = st.lake.surface0

/-- Normal-completion output of a concrete isothermal run. -/
def outIso : IceMeltOut := okOutput (ice_melt Cstd ebIso 5 sEx lEx 1 0 0 (1/2) 0)

/-! ### C2: the mass balance diagnostic -/

/-- The paths on which the step's accounting is exact: in the
isothermal branch, the vapor-flux demand must not exceed the total mass
of the three reservoirs when the adjustment runs (otherwise the clamp
forgets the surface liquid); in the subfreezing branch, either some snow
ice must remain after the freeze or the vapor flux must be zero
(otherwise the flux is routed to the lake volume but still counted). -/
def conservativePath (C : Consts) (eb : ℚ → EBOut) (rb : ℚ)
    (snow : snow_data_struct) (lake : lake_var_struct) (dt r s : ℚ) : Prop :=
  if (eb 0).Qnet = 0 then
    -((stageA C eb snow lake dt r s).snow.vapor_flux) ≤
      wsum (stageA C eb snow lake dt r s)
  else
    0 < (stageB C eb rb snow lake dt r s).SnowIce ∨
      (stageB C eb rb snow lake dt r s).snow.vapor_flux = 0

instance (C : Consts) (eb : ℚ → EBOut) (rb : ℚ) (snow : snow_data_struct)
    (lake : lake_var_struct) (dt r s : ℚ) :
    Decidable (conservativePath C eb rb snow lake dt r s) := by
  unfold conservativePath
  infer_instance

/-- A snow-free state for the C2 counterexample. -/
def sC2 : snow_data_struct :=
  { surf_temp := -1, surf_water := 0, pack_water := 0, pack_temp := 0, swq := 0,
    vapor_flux := 0, blowing_flux := 0, surface_flux := 0, mass_error := 0,
    melt_energy := 0 }

/-- An energy balance with nonzero net energy and a deposition vapor
flux of 0.5 m. -/
def ebC2 : ℚ → EBOut := fun _ =>
  { Qnet := 1, RefreezeEnergy := 0, vapor_flux := 1/2, blowing_flux := 0,
    surface_flux := 0, advection := 0, SnowFlux := 0, latent_heat := 0,
    sensible_heat := 0, LWnet := 0 }

/-! ### C3: nonnegative outputs -/

/-- The exact-exhaustion boundary excluded by the amended C3: the vapor
flux demand must not equal the exact total of the reservoirs available
in the branch that runs. -/
def noExactExhaust (C : Consts) (eb : ℚ → EBOut) (rb : ℚ)
    (snow : snow_data_struct) (lake : lake_var_struct) (dt r s : ℚ) : Prop :=
  if (eb 0).Qnet = 0 then
    wsum (stageA C eb snow lake dt r s) ≠
      -((stageA C eb snow lake dt r s).snow.vapor_flux)
  else
    (stageB C eb rb snow lake dt r s).SnowIce +
        (stageB C eb rb snow lake dt r s).LakeIce ≠
      -((stageB C eb rb snow lake dt r s).snow.vapor_flux)

instance (C : Consts) (eb : ℚ → EBOut) (rb : ℚ) (snow : snow_data_struct)
    (lake : lake_var_struct) (dt r s : ℚ) :
    Decidable (noExactExhaust C eb rb snow lake dt r s) := by
  unfold noExactExhaust
  infer_instance

/-- A lake state whose ice is exactly 0.01 m water equivalent under the
VIC densities. -/
def lC3 : lake_var_struct := { hice := 10/917, fraci := 1, volume := 1000, surface0 := 100 }

/-- An isothermal energy balance whose vapor flux demand of 0.01 m
exactly equals the available reservoir total. -/
def ebC3 : ℚ → EBOut := fun _ =>
  { Qnet := 0, RefreezeEnergy := 0, vapor_flux := -(1/100), blowing_flux := 0,
    surface_flux := 0, advection := 0, SnowFlux := 0, latent_heat := 0,
    sensible_heat := 0, LWnet := 0 }

/-! ### Theorems -/

/-! ### C8: in the subfreezing branch all surface liquid water freezes -/

/-- C8: in the subfreezing branch of the ice/snow melt step (the code of
lines 345-356, `freezeAll`), for every input the full surface liquid
water is added to the snow-ice mass, the corresponding freeze energy
`surf_water * Lf * RHO_W / (delta_t * SECPHOUR)` is added to the
melt-energy accumulator, the surface liquid water is set exactly to
zero, and the snowmelt is set to zero. -/
theorem C8_subfreezing_freezes_all_liquid (C : Consts) (delta_t : ℚ) (st : MeltSt) :
    (freezeAll C delta_t st).SnowIce = st.SnowIce + st.snow.surf_water ∧
    (freezeAll C delta_t st).melt_energy =
      st.melt_energy + st.snow.surf_water * C.Lf * C.RHO_W / (delta_t * C.SECPHOUR) ∧
    (freezeAll C delta_t st).snow.surf_water = 0 ∧
    (freezeAll C delta_t st).SnowMelt = 0 := by
  refine ⟨rfl, rfl, rfl, rfl⟩

/-! ### C5: melt partition against snow ice, then lake ice -/

/-- C5: in the isothermal branch (the code of lines 271-291,
`meltPartition`), snowmelt below the snow ice reduces snow ice and goes
to surface liquid; snowmelt between snow ice and snow ice + lake ice
zeroes snow ice, takes the remainder out of lake ice (recording it as
ice melt) and moves the original snow ice to surface liquid; snowmelt at
or above the total ice (for a nonnegative lake-ice reservoir) is clamped
to the total, zeroes both reservoirs and records the full lake ice as
ice melt. -/
theorem C5_melt_partition (st : MeltSt) :
    (st.SnowMelt < st.SnowIce →
      (meltPartition st).SnowIce = st.SnowIce - st.SnowMelt ∧
      (meltPartition st).snow.surf_water = st.snow.surf_water + st.SnowMelt ∧
      (meltPartition st).LakeIce = st.LakeIce ∧
      (meltPartition st).IceMelt = st.IceMelt) ∧
    (st.SnowIce ≤ st.SnowMelt → st.SnowMelt < st.SnowIce + st.LakeIce →
      (meltPartition st).SnowIce = 0 ∧
      (meltPartition st).LakeIce = st.LakeIce - (st.SnowMelt - st.SnowIce) ∧
      (meltPartition st).IceMelt = st.SnowMelt - st.SnowIce ∧
      (meltPartition st).snow.surf_water = st.snow.surf_water + st.SnowIce) ∧
    (0 ≤ st.LakeIce → st.SnowIce + st.LakeIce ≤ st.SnowMelt →
      (meltPartition st).SnowMelt = st.SnowIce + st.LakeIce ∧
      (meltPartition st).SnowIce = 0 ∧
      (meltPartition st).LakeIce = 0 ∧
      (meltPartition st).IceMelt = st.LakeIce ∧
      (meltPartition st).snow.surf_water = st.snow.surf_water + st.SnowIce) := by
  unfold meltPartition
  split_ifs with h1 h2 <;>
    refine ⟨fun ha => ?_, fun hb hc => ?_, fun hd he => ?_⟩ <;>
    first
      | exact ⟨rfl, rfl, rfl, rfl⟩
      | exact ⟨rfl, rfl, rfl, rfl, rfl⟩
      | (exfalso; rcases h2 with ⟨h2a, h2b⟩ <;> linarith)
      | (exfalso; push_neg at h2; linarith [h2 (le_of_not_lt h1)])
      | (exfalso; linarith)

/-- Witness for C5 on the spec's complete melt-through scenario: the
melt is clamped to the total ice 0.012 m, both reservoirs are zeroed and
the full lake ice 0.01 m is recorded as ice melt. -/
theorem C5_melt_partition_witness :
    (meltPartition stC5).SnowMelt = 3/250 ∧
    (meltPartition stC5).SnowIce = 0 ∧
    (meltPartition stC5).LakeIce = 0 ∧
    (meltPartition stC5).IceMelt = 1/100 ∧
    (meltPartition stC5).snow.surf_water = stC5.snow.surf_water + 1/500 := by
  have h := (C5_melt_partition stC5).2.2 (by norm_num [stC5]) (by norm_num [stC5])
  refine ⟨?_, h.2.1, h.2.2.1, ?_, ?_⟩
  · rw [h.1]; norm_num [stC5]
  · rw [h.2.2.2.1]; norm_num [stC5]
  · rw [h.2.2.2.2]; norm_num [stC5]

/-! ### C4: three-reservoir vapor flux priority in the isothermal branch -/

/-- C4 (amended): in the isothermal branch (the code of lines 245-269,
`vaporAdjust3`), the vapor-flux adjustment follows three-reservoir
priority.  If snow ice + surface liquid + lake ice is insufficient for
the flux magnitude, the vapor flux is clamped to the total available
mass (with surface plus blowing flux equal to it), both ice reservoirs
are zeroed, and the lost lake-ice mass scaled by the prior ice-covered
fraction and surface area is deducted from (not added to) the lake
volume.  If snow ice + surface liquid alone is insufficient but lake ice
fills the gap, lake ice absorbs the (negative) amount `vapor_flux +
SnowIce`, the lake volume changes by that amount scaled by fraction and
area, and snow ice is zeroed.  Otherwise the flux is satisfied from
surface liquid water first, falling back to snow ice. -/
theorem C4_vapor_priority_amended (f : ℚ) (st : MeltSt) :
    (st.SnowIce + st.snow.surf_water + st.LakeIce < -(st.snow.vapor_flux) →
      (vaporAdjust3 f st).SnowIce = 0 ∧
      (vaporAdjust3 f st).LakeIce = 0 ∧
      (vaporAdjust3 f st).snow.vapor_flux =
        -(st.SnowIce + st.snow.surf_water + st.LakeIce) ∧
      (vaporAdjust3 f st).snow.surface_flux + (vaporAdjust3 f st).snow.blowing_flux =
        -(st.SnowIce + st.snow.surf_water + st.LakeIce) ∧
      (vaporAdjust3 f st).lake.volume =
        st.lake.volume - st.LakeIce * f * st.lake.surface0 ∧
      (vaporAdjust3 f st).snow.surf_water = st.snow.surf_water) ∧
    (st.SnowIce + st.snow.surf_water < -(st.snow.vapor_flux) →
     -(st.snow.vapor_flux) < st.SnowIce + st.snow.surf_water + st.LakeIce →
      (vaporAdjust3 f st).LakeIce = st.LakeIce + (st.snow.vapor_flux + st.SnowIce) ∧
      (vaporAdjust3 f st).lake.volume =
        st.lake.volume + st.lake.surface0 * f * (st.snow.vapor_flux + st.SnowIce) ∧
      (vaporAdjust3 f st).SnowIce = 0 ∧
      (vaporAdjust3 f st).snow.surf_water = st.snow.surf_water ∧
      (vaporAdjust3 f st).snow.vapor_flux = st.snow.vapor_flux) ∧
    (-(st.snow.vapor_flux) ≤ st.SnowIce + st.snow.surf_water + st.LakeIce →
     ¬(st.SnowIce + st.snow.surf_water < -(st.snow.vapor_flux) ∧
       -(st.snow.vapor_flux) < st.SnowIce + st.snow.surf_water + st.LakeIce) →
      ((st.snow.surf_water < -(st.snow.vapor_flux) →
        (vaporAdjust3 f st).SnowIce =
          st.SnowIce + (st.snow.vapor_flux + st.snow.surf_water) ∧
        (vaporAdjust3 f st).snow.surf_water = 0 ∧
        (vaporAdjust3 f st).LakeIce = st.LakeIce ∧
        (vaporAdjust3 f st).lake.volume = st.lake.volume) ∧
       (-(st.snow.vapor_flux) ≤ st.snow.surf_water →
        (vaporAdjust3 f st).snow.surf_water =
          st.snow.surf_water + st.snow.vapor_flux ∧
        (vaporAdjust3 f st).SnowIce = st.SnowIce ∧
        (vaporAdjust3 f st).LakeIce = st.LakeIce ∧
        (vaporAdjust3 f st).lake.volume = st.lake.volume))) := by
  unfold vaporAdjust3
  split_ifs with h1 h2 h3
  · exact ⟨fun ha => ⟨rfl, rfl, rfl, by ring, rfl, rfl⟩,
      fun hb hc => ((by linarith : False)).elim,
      fun hd he => ((by linarith : False)).elim⟩
  · exact ⟨fun ha => (h1 ha).elim,
      fun hb hc => ⟨rfl, rfl, rfl, rfl, rfl⟩,
      fun hd he => (he h2).elim⟩
  · exact ⟨fun ha => (h1 ha).elim,
      fun hb hc => (h2 ⟨hb, hc⟩).elim,
      fun hd he => ⟨fun hf => ⟨rfl, rfl, rfl, rfl⟩,
        fun hg => ((by linarith : False)).elim⟩⟩
  · exact ⟨fun ha => (h1 ha).elim,
      fun hb hc => (h2 ⟨hb, hc⟩).elim,
      fun hd he => ⟨fun hf => (h3 hf).elim,
        fun hg => ⟨rfl, rfl, rfl, rfl⟩⟩⟩

/-- Witness for C4 on the spec's reservoir-priority scenario: snow ice
ends at zero and the remainder 0.02 m is drawn from lake ice, leaving
0.03 m, with the matching volume adjustment. -/
theorem C4_vapor_priority_amended_witness :
    (vaporAdjust3 (1/2) stC4w).LakeIce = 3/100 ∧
    (vaporAdjust3 (1/2) stC4w).SnowIce = 0 ∧
    (vaporAdjust3 (1/2) stC4w).lake.volume = 999 := by
  have h := (C4_vapor_priority_amended (1/2) stC4w).2.1
    (by norm_num [stC4w, sEx]) (by norm_num [stC4w, sEx, lEx])
  refine ⟨?_, h.2.2.1, ?_⟩
  · rw [h.1]; norm_num [stC4w, sEx]
  · rw [h.2.1]; norm_num [stC4w, sEx, lEx]

/-- Counterexample to C4 as stated: in the total-exhaustion case the
lost lake-ice mass scaled by fraction and area is not transferred *to*
the lake volume — the code subtracts it.  With snow ice = 0, surface
liquid = 0, lake ice = 0.01 m, vapor flux = -0.02 m, fraction 1 and
area 100 m², the volume drops from 1000 to 999 instead of rising
to 1001. -/
theorem C4_vapor_priority_counterexample :
    stC4.SnowIce + stC4.snow.surf_water + stC4.LakeIce < -(stC4.snow.vapor_flux) ∧
    (vaporAdjust3 1 stC4).lake.volume = 999 ∧
    (vaporAdjust3 1 stC4).lake.volume ≠
      stC4.lake.volume + stC4.LakeIce * 1 * stC4.lake.surface0 := by
  refine ⟨by norm_num [stC4, sEx, lEx], ?_, ?_⟩ <;>
    norm_num [vaporAdjust3, stC4, sEx, lEx]

theorem FrameEq.trans {s1 s2 s3 : MeltSt} (h1 : FrameEq s1 s2) (h2 : FrameEq s2 s3) :
    FrameEq s1 s3 :=
  ⟨h2.1.trans h1.1, h2.2.1.trans h1.2.1, h2.2.2.1.trans h1.2.2.1,
    h2.2.2.2.trans h1.2.2.2⟩

theorem frame_initState (C : Consts) (snow : snow_data_struct)
    (lake : lake_var_struct) (r s : ℚ) :
    (initState C snow lake r s).snow.pack_water = snow.pack_water ∧
    (initState C snow lake r s).snow.pack_temp = snow.pack_temp ∧
    (initState C snow lake r s).snow.melt_energy = snow.melt_energy ∧
    (initState C snow lake r s).lake.surface0 = lake.surface0 :=
  ⟨rfl, rfl, rfl, rfl⟩

theorem frame_applyEB (e : EBOut) (st : MeltSt) : FrameEq st (applyEB e st) :=
  ⟨rfl, rfl, rfl, rfl⟩

theorem frame_refreezeStep (C : Consts) (dt : ℚ) (st : MeltSt) :
    FrameEq st (refreezeStep C dt st) := by
  unfold FrameEq refreezeStep
  dsimp only
  split_ifs <;> exact ⟨rfl, rfl, rfl, rfl⟩

theorem frame_vaporAdjust3 (f : ℚ) (st : MeltSt) : FrameEq st (vaporAdjust3 f st) := by
  unfold FrameEq vaporAdjust3
  split_ifs <;> exact ⟨rfl, rfl, rfl, rfl⟩

theorem frame_meltPartition (st : MeltSt) : FrameEq st (meltPartition st) := by
  unfold FrameEq meltPartition
  split_ifs <;> exact ⟨rfl, rfl, rfl, rfl⟩

theorem frame_solveApply (rb : ℚ) (e : EBOut) (st : MeltSt) :
    FrameEq st (solveApply rb e st) :=
  ⟨rfl, rfl, rfl, rfl⟩

theorem frame_freezeAll (C : Consts) (dt : ℚ) (st : MeltSt) :
    FrameEq st (freezeAll C dt st) :=
  ⟨rfl, rfl, rfl, rfl⟩

theorem frame_vaporAdjust2 (f : ℚ) (st : MeltSt) : FrameEq st (vaporAdjust2 f st) := by
  unfold FrameEq vaporAdjust2
  split_ifs <;> exact ⟨rfl, rfl, rfl, rfl⟩

theorem frame_finishStep (C : Consts) (a b r s d : ℚ) (e : EBOut) (st : MeltSt) :
    (finishStep C a b r s d e st).snow.pack_water = st.snow.pack_water ∧
    (finishStep C a b r s d e st).snow.pack_temp = st.snow.pack_temp ∧
    (finishStep C a b r s d e st).snow.melt_energy = st.snow.melt_energy ∧
    (finishStep C a b r s d e st).lake.surface0 = st.lake.surface0 :=
  ⟨rfl, rfl, rfl, rfl⟩

/-! ### Surface temperature tracking lemmas -/

theorem surfTemp_refreezeStep (C : Consts) (dt : ℚ) (st : MeltSt) :
    (refreezeStep C dt st).snow.surf_temp = 0 := by
  unfold refreezeStep
  dsimp only
  split_ifs <;> rfl

theorem surfTemp_vaporAdjust3 (f : ℚ) (st : MeltSt) :
    (vaporAdjust3 f st).snow.surf_temp = st.snow.surf_temp := by
  unfold vaporAdjust3
  split_ifs <;> rfl

theorem surfTemp_meltPartition (st : MeltSt) :
    (meltPartition st).snow.surf_temp = st.snow.surf_temp := by
  unfold meltPartition
  split_ifs <;> rfl

theorem surfTemp_solveApply (rb : ℚ) (e : EBOut) (st : MeltSt) :
    (solveApply rb e st).snow.surf_temp = rb :=
  rfl

theorem surfTemp_freezeAll (C : Consts) (dt : ℚ) (st : MeltSt) :
    (freezeAll C dt st).snow.surf_temp = st.snow.surf_temp :=
  rfl

theorem surfTemp_vaporAdjust2 (f : ℚ) (st : MeltSt) :
    (vaporAdjust2 f st).snow.surf_temp = st.snow.surf_temp := by
  unfold vaporAdjust2
  split_ifs <;> rfl

theorem surfTemp_finishStep (C : Consts) (a b r s d : ℚ) (e : EBOut) (st : MeltSt) :
    (finishStep C a b r s d e st).snow.surf_temp = st.snow.surf_temp :=
  rfl

/-! ### C6: surface liquid water cap -/

/-- The final capping of the surface liquid water in `finishStep`:
the output surface liquid never exceeds `LIQUID_WATER_CAPACITY` times
the remaining snow ice (recoverable from the outputs as
`swq - surf_water`), the melt output is nonnegative, and a positive melt
output means the surface liquid sits exactly at the cap. -/
theorem finishStep_cap (C : Consts) (a b r s d : ℚ) (e : EBOut) (st : MeltSt) :
    (finishStep C a b r s d e st).snow.surf_water ≤
      C.LIQUID_WATER_CAPACITY *
        ((finishStep C a b r s d e st).snow.swq -
          (finishStep C a b r s d e st).snow.surf_water) ∧
    0 ≤ (finishStep C a b r s d e st).melt ∧
    (0 < (finishStep C a b r s d e st).melt →
      (finishStep C a b r s d e st).snow.surf_water =
        C.LIQUID_WATER_CAPACITY *
          ((finishStep C a b r s d e st).snow.swq -
            (finishStep C a b r s d e st).snow.surf_water)) := by
  unfold finishStep cappedSurfWater meltExcess MaxLiquidWater
  split_ifs with h1 h2 <;> dsimp only
  · exact ⟨le_of_eq (by ring), by nlinarith, fun hm => by ring⟩
  · exact ⟨le_of_eq (by ring), by nlinarith, fun hm => by ring⟩
  · exact ⟨by nlinarith [le_of_not_lt h1], by norm_num, fun hm => by norm_num at hm⟩
  · exact ⟨by nlinarith [le_of_not_lt h1], by norm_num, fun hm => by norm_num at hm⟩

/-- C6: after every completing call of the ice/snow melt step (on either
branch), the final surface liquid water never exceeds
`LIQUID_WATER_CAPACITY` times the remaining snow-ice mass
(`swq - surf_water`), the melt output is nonnegative, and whenever any
melt is delivered the surface liquid water sits exactly at the cap. -/
theorem C6_surface_liquid_cap (C : Consts) (eb : ℚ → EBOut) (rb : ℚ)
    (snow : snow_data_struct) (lake : lake_var_struct)
    (dt r s f d : ℚ) (out : IceMeltOut)
    (h : ice_melt C eb rb snow lake dt r s f d = IceMeltResult.ok out) :
    out.snow.surf_water ≤
      C.LIQUID_WATER_CAPACITY * (out.snow.swq - out.snow.surf_water) ∧
    0 ≤ out.melt ∧
    (0 < out.melt →
      out.snow.surf_water =
        C.LIQUID_WATER_CAPACITY * (out.snow.swq - out.snow.surf_water)) := by
  unfold ice_melt at h
  split_ifs at h with h1 h2
  · injection h with h
    subst h
    exact finishStep_cap ..
  · injection h with h
    subst h
    exact finishStep_cap ..

/-- Witness for C6 at a concrete isothermal run. -/
theorem C6_surface_liquid_cap_witness :
    outIso.snow.surf_water ≤
      Cstd.LIQUID_WATER_CAPACITY * (outIso.snow.swq - outIso.snow.surf_water) ∧
    0 ≤ outIso.melt ∧
    (0 < outIso.melt →
      outIso.snow.surf_water =
        Cstd.LIQUID_WATER_CAPACITY * (outIso.snow.swq - outIso.snow.surf_water)) :=
  C6_surface_liquid_cap Cstd ebIso 5 sEx lEx 1 0 0 (1/2) 0 outIso
    (by norm_num [outIso, okOutput, ice_melt, initState, applyEB, refreezeStep,
      vaporAdjust3, meltPartition, finishStep, Cstd, sEx, lEx, ebIso])

/-! ### C10: frame of the step over the two state structures -/

/-- C10: every completing call leaves `snow->pack_water`,
`snow->pack_temp` and `snow->melt_energy` unchanged (even though the
header comment lists them as modified), and leaves `lake->surface[0]`
unchanged; together with the output structure this confirms that the
only snow fields written are `surf_temp`, `surf_water`, `swq`,
`vapor_flux`, `blowing_flux`, `surface_flux`, `mass_error`, and the only
lake fields written are `hice`, `fraci`, `volume`. -/
theorem C10_frame_fields (C : Consts) (eb : ℚ → EBOut) (rb : ℚ)
    (snow : snow_data_struct) (lake : lake_var_struct)
    (dt r s f d : ℚ) (out : IceMeltOut)
    (h : ice_melt C eb rb snow lake dt r s f d = IceMeltResult.ok out) :
    out.snow.pack_water = snow.pack_water ∧
    out.snow.pack_temp = snow.pack_temp ∧
    out.snow.melt_energy = snow.melt_energy ∧
    out.lake.surface0 = lake.surface0 := by
  simp only [ice_melt] at h
  split_ifs at h with h1 h2
  · injection h with h
    subst h
    have hch : FrameEq (initState C snow lake r s)
        (meltPartition (vaporAdjust3 f
          (refreezeStep C dt (applyEB (eb 0) (initState C snow lake r s))))) :=
      (((frame_applyEB (eb 0) (initState C snow lake r s)).trans
        (frame_refreezeStep C dt _)).trans
        (frame_vaporAdjust3 f _)).trans (frame_meltPartition _)
    obtain ⟨i1, i2, i3, i4⟩ := frame_initState C snow lake r s
    obtain ⟨f1, f2, f3, f4⟩ := frame_finishStep C snow.swq
      (lake.hice * C.RHOICE / C.RHO_W) (r / 1000) (s / 1000) d (eb 0)
      (meltPartition (vaporAdjust3 f
        (refreezeStep C dt (applyEB (eb 0) (initState C snow lake r s)))))
    exact ⟨(f1.trans hch.1).trans i1, (f2.trans hch.2.1).trans i2,
      (f3.trans hch.2.2.1).trans i3, (f4.trans hch.2.2.2).trans i4⟩
  · injection h with h
    subst h
    have hch : FrameEq (initState C snow lake r s)
        (vaporAdjust2 f (freezeAll C dt
          (solveApply rb (eb rb) (applyEB (eb 0) (initState C snow lake r s))))) :=
      (((frame_applyEB (eb 0) (initState C snow lake r s)).trans
        (frame_solveApply rb (eb rb) _)).trans
        (frame_freezeAll C dt _)).trans (frame_vaporAdjust2 f _)
    obtain ⟨i1, i2, i3, i4⟩ := frame_initState C snow lake r s
    obtain ⟨f1, f2, f3, f4⟩ := frame_finishStep C snow.swq
      (lake.hice * C.RHOICE / C.RHO_W) (r / 1000) (s / 1000) d (eb rb)
      (vaporAdjust2 f (freezeAll C dt
        (solveApply rb (eb rb) (applyEB (eb 0) (initState C snow lake r s)))))
    exact ⟨(f1.trans hch.1).trans i1, (f2.trans hch.2.1).trans i2,
      (f3.trans hch.2.2.1).trans i3, (f4.trans hch.2.2.2).trans i4⟩

/-- Witness for C10 at a concrete isothermal run: the untouched fields
keep their initial values 3, -2, 5 and 100. -/
theorem C10_frame_fields_witness :
    outIso.snow.pack_water = sEx.pack_water ∧
    outIso.snow.pack_temp = sEx.pack_temp ∧
    outIso.snow.melt_energy = sEx.melt_energy ∧
    outIso.lake.surface0 = lEx.surface0 :=
  C10_frame_fields Cstd ebIso 5 sEx lEx 1 0 0 (1/2) 0 outIso
    (by norm_num [outIso, okOutput, ice_melt, initState, applyEB, refreezeStep,
      vaporAdjust3, meltPartition, finishStep, Cstd, sEx, lEx, ebIso])

/-! ### C1: branch selection on the sign of the 0-degree net energy -/

/-- C1 (amended): the step takes the isothermal branch exactly when the
net energy returned by the energy balance at trial temperature 0 is
exactly zero — in that case the result does not depend on the root
solver at all and the surface temperature is set to 0.  Whenever that
net energy is nonzero (strictly negative or strictly positive), the
root solver is invoked and its result becomes the surface temperature
(or triggers the fatal path). -/
theorem C1_branch_selection_amended (C : Consts) (eb : ℚ → EBOut) (rb1 rb2 : ℚ)
    (snow : snow_data_struct) (lake : lake_var_struct) (dt r s f d : ℚ) :
    ((eb 0).Qnet = 0 →
      ice_melt C eb rb1 snow lake dt r s f d = ice_melt C eb rb2 snow lake dt r s f d ∧
      resultSurfTemp (ice_melt C eb rb1 snow lake dt r s f d) = 0) ∧
    ((eb 0).Qnet ≠ 0 →
      resultSurfTemp (ice_melt C eb rb1 snow lake dt r s f d) = rb1) := by
  constructor
  · intro hQ
    constructor
    · unfold ice_melt
      rw [if_pos hQ, if_pos hQ]
    · unfold ice_melt
      rw [if_pos hQ]
      show (finishStep C snow.swq (lake.hice * C.RHOICE / C.RHO_W)
        (r / 1000) (s / 1000) d (eb 0)
        (meltPartition (vaporAdjust3 f
          (refreezeStep C dt (applyEB (eb 0) (initState C snow lake r s)))))).snow.surf_temp = 0
      rw [surfTemp_finishStep, surfTemp_meltPartition, surfTemp_vaporAdjust3,
        surfTemp_refreezeStep]
  · intro hQ
    unfold ice_melt
    rw [if_neg hQ]
    by_cases hrb : rb1 ≤ -9998
    · rw [if_pos hrb]
      rfl
    · rw [if_neg hrb]
      show (finishStep C snow.swq (lake.hice * C.RHOICE / C.RHO_W)
        (r / 1000) (s / 1000) d (eb rb1)
        (vaporAdjust2 f (freezeAll C dt
          (solveApply rb1 (eb rb1) (applyEB (eb 0) (initState C snow lake r s)))))).snow.surf_temp = rb1
      rw [surfTemp_finishStep, surfTemp_vaporAdjust2, surfTemp_freezeAll,
        surfTemp_solveApply]

/-- Witness for C1 (amended), isothermal side: with a zero net energy
the result is independent of the solver output and is held at 0 degrees. -/
theorem C1_branch_selection_amended_witness :
    ice_melt Cstd ebIso 5 sEx lEx 1 0 0 (1/2) 0 =
      ice_melt Cstd ebIso 7 sEx lEx 1 0 0 (1/2) 0 ∧
    resultSurfTemp (ice_melt Cstd ebIso 5 sEx lEx 1 0 0 (1/2) 0) = 0 :=
  (C1_branch_selection_amended Cstd ebIso 5 7 sEx lEx 1 0 0 (1/2) 0).1 rfl

/-- Counterexample to C1 as stated: with a strictly positive net energy
at the 0-degree trial temperature the step does not take the isothermal
branch — it invokes the root solver, as witnessed by the result changing
when only the solver output changes. -/
theorem C1_branch_selection_counterexample :
    0 < (ebPos 0).Qnet ∧
    ice_melt Cstd ebPos (-1) sEx lEx 1 0 0 (1/2) 0 ≠
      ice_melt Cstd ebPos (-2) sEx lEx 1 0 0 (1/2) 0 := by
  constructor
  · norm_num [ebPos]
  · norm_num [ice_melt, initState, applyEB, solveApply, freezeAll, vaporAdjust2,
      finishStep, cappedSurfWater, meltExcess, MaxLiquidWater, hiceRaw,
      Cstd, sEx, lEx, ebPos]

/-! ### C7: the fatal diagnostic path fires exactly on the sentinel -/

/-- C7 (amended): in the subfreezing branch the fatal diagnostic path
(parameter dump and process termination, no result returned) is taken
if and only if the root solver result is at or below -9998 (the code
tests `surf_temp <= -9998`, so exactly -9998 also dies); the isothermal
branch never takes it. -/
theorem C7_fatal_sentinel_amended (C : Consts) (eb : ℚ → EBOut) (rb : ℚ)
    (snow : snow_data_struct) (lake : lake_var_struct) (dt r s f d : ℚ) :
    ((eb 0).Qnet ≠ 0 →
      (ice_melt C eb rb snow lake dt r s f d = IceMeltResult.fatal rb ↔ rb ≤ -9998)) ∧
    ((eb 0).Qnet = 0 →
      ∀ t, ice_melt C eb rb snow lake dt r s f d ≠ IceMeltResult.fatal t) := by
  unfold ice_melt
  split_ifs with h1 h2
  · exact ⟨fun hne => (hne h1).elim,
      fun hQ t ht => IceMeltResult.noConfusion ht⟩
  · exact ⟨fun hne => ⟨fun heq => h2, fun hle => rfl⟩,
      fun hQ => (h1 hQ).elim⟩
  · exact ⟨fun hne => ⟨fun heq => heq.elim,
      fun hle => (h2 hle).elim⟩,
      fun hQ => (h1 hQ).elim⟩

/-- Witness for C7 (amended): a sentinel result of -9999 with nonzero
net energy takes the fatal path. -/
theorem C7_fatal_sentinel_amended_witness :
    ice_melt Cstd ebPos (-9999) sEx lEx 1 0 0 (1/2) 0 =
      IceMeltResult.fatal (-9999) :=
  ((C7_fatal_sentinel_amended Cstd ebPos (-9999) sEx lEx 1 0 0 (1/2) 0).1
    (by norm_num [ebPos])).mpr (by norm_num)

/-- Counterexample to C7 as stated: a solver result of exactly -9998 is
not "below -9998", yet the step takes the fatal path rather than
completing normally. -/
theorem C7_fatal_sentinel_counterexample :
    ice_melt Cstd ebPos (-9998) sEx lEx 1 0 0 (1/2) 0 =
      IceMeltResult.fatal (-9998) ∧
    ¬ ((-9998 : ℚ) < -9998) := by
  constructor
  · norm_num [ice_melt, ebPos]
  · norm_num

/-! ### C9: determinism -/

/-- C9: with the external primitives modelled as pure functions, the
step is deterministic — two calls with identical constants, energy
balance, solver result, prior states and forcing produce identical
results; the model threads no other state. -/
theorem C9_deterministic (Ca Cb : Consts) (eba ebb : ℚ → EBOut) (rba rbb : ℚ)
    (snowa snowb : snow_data_struct) (lakea lakeb : lake_var_struct)
    (dta dtb ra rb sa sb fa fb da db : ℚ)
    (hC : Ca = Cb) (heb : eba = ebb) (hrb : rba = rbb) (hsnow : snowa = snowb)
    (hlake : lakea = lakeb) (hdt : dta = dtb) (hr : ra = rb) (hs : sa = sb)
    (hf : fa = fb) (hd : da = db) :
    ice_melt Ca eba rba snowa lakea dta ra sa fa da =
      ice_melt Cb ebb rbb snowb lakeb dtb rb sb fb db := by
  subst hC heb hrb hsnow hlake hdt hr hs hf hd
  rfl

/-- Witness for C9 at concrete arguments. -/
theorem C9_deterministic_witness :
    ice_melt Cstd ebIso 5 sEx lEx 1 0 0 (1/2) 0 =
      ice_melt Cstd ebIso 5 sEx lEx 1 0 0 (1/2) 0 :=
  C9_deterministic Cstd Cstd ebIso ebIso 5 5 sEx sEx lEx lEx 1 1 0 0 0 0 (1/2) (1/2) 0 0
    rfl rfl rfl rfl rfl rfl rfl rfl rfl rfl

/-! ### Mass accounting lemmas -/

theorem wsum_initState (C : Consts) (snow : snow_data_struct)
    (lake : lake_var_struct) (r s : ℚ) :
    wsum (initState C snow lake r s) =
      snow.swq + lake.hice * C.RHOICE / C.RHO_W + r / 1000 + s / 1000 := by
  unfold wsum initState
  ring

theorem wsum_applyEB (e : EBOut) (st : MeltSt) : wsum (applyEB e st) = wsum st :=
  rfl

theorem refreezeStep_invariants (C : Consts) (dt : ℚ) (st : MeltSt) :
    wsum (refreezeStep C dt st) = wsum st ∧
    (refreezeStep C dt st).snow.vapor_flux = st.snow.vapor_flux ∧
    (refreezeStep C dt st).IceMelt = st.IceMelt ∧
    (refreezeStep C dt st).LakeIce = st.LakeIce := by
  unfold wsum refreezeStep
  split_ifs <;> exact ⟨by dsimp only; try ring, rfl, rfl, rfl⟩

theorem vaporAdjust3_mass (f : ℚ) (st : MeltSt)
    (h : -(st.snow.vapor_flux) ≤ st.SnowIce + st.snow.surf_water + st.LakeIce) :
    wsum (vaporAdjust3 f st) = wsum st + (vaporAdjust3 f st).snow.vapor_flux ∧
    (vaporAdjust3 f st).IceMelt = st.IceMelt ∧
    (vaporAdjust3 f st).SnowMelt = st.SnowMelt := by
  unfold wsum vaporAdjust3
  split_ifs with h1 h2 h3
  · exact ((not_lt.mpr h) h1).elim
  · exact ⟨by dsimp only; ring, rfl, rfl⟩
  · exact ⟨by dsimp only; ring, rfl, rfl⟩
  · exact ⟨by dsimp only; ring, rfl, rfl⟩

theorem meltPartition_mass (st : MeltSt) (hI : st.IceMelt = 0) :
    wsum (meltPartition st) = wsum st - (meltPartition st).IceMelt ∧
    (meltPartition st).snow.vapor_flux = st.snow.vapor_flux := by
  unfold wsum meltPartition
  split_ifs <;> refine ⟨?_, rfl⟩ <;> dsimp only <;> (try rw [hI]) <;> ring

theorem freezeAll_mass (C : Consts) (dt : ℚ) (st : MeltSt) :
    wsum (freezeAll C dt st) = wsum st ∧
    (freezeAll C dt st).snow.vapor_flux = st.snow.vapor_flux ∧
    (freezeAll C dt st).IceMelt = st.IceMelt :=
  ⟨by unfold wsum freezeAll; dsimp only; ring, rfl, rfl⟩

theorem vaporAdjust2_mass (f : ℚ) (st : MeltSt)
    (h : 0 < st.SnowIce ∨ st.snow.vapor_flux = 0) :
    wsum (vaporAdjust2 f st) = wsum st + (vaporAdjust2 f st).snow.vapor_flux ∧
    (vaporAdjust2 f st).IceMelt = st.IceMelt := by
  unfold wsum vaporAdjust2
  split_ifs with h1 h2 h3
  · exact ⟨by dsimp only; ring, rfl⟩
  · exact ⟨by dsimp only; ring, rfl⟩
  · exact ⟨by dsimp only; ring, rfl⟩
  · rcases h with h | h
    · exact ((h3 h)).elim
    · exact ⟨by dsimp only; rw [h]; ring, rfl⟩

theorem finishStep_mass (C : Consts) (a b r s d : ℚ) (e : EBOut) (st : MeltSt) :
    (finishStep C a b r s d e st).snow.mass_error =
      a + b + r + s - wsum st - st.IceMelt + st.snow.vapor_flux := by
  unfold finishStep cappedSurfWater meltExcess MaxLiquidWater wsum
  split_ifs <;> dsimp only <;> ring

theorem finishStep_formula (C : Consts) (a b r s d : ℚ) (e : EBOut) (st : MeltSt) :
    (finishStep C a b r s d e st).snow.mass_error =
      (a - (finishStep C a b r s d e st).snow.swq) +
      (b - (finishStep C a b r s d e st).LakeIce) + (r + s) -
      (finishStep C a b r s d e st).IceMelt -
      (finishStep C a b r s d e st).melt / 1000 +
      (-((finishStep C a b r s d e st).snow.vapor_flux)) := by
  unfold finishStep cappedSurfWater meltExcess MaxLiquidWater
  split_ifs <;> dsimp only <;> ring

theorem stageA_wsum (C : Consts) (eb : ℚ → EBOut) (snow : snow_data_struct)
    (lake : lake_var_struct) (dt r s : ℚ) :
    wsum (stageA C eb snow lake dt r s) =
      snow.swq + lake.hice * C.RHOICE / C.RHO_W + r / 1000 + s / 1000 := by
  unfold stageA
  rw [(refreezeStep_invariants C dt (applyEB (eb 0) (initState C snow lake r s))).1,
    wsum_applyEB, wsum_initState]

theorem stageA_IceMelt (C : Consts) (eb : ℚ → EBOut) (snow : snow_data_struct)
    (lake : lake_var_struct) (dt r s : ℚ) :
    (stageA C eb snow lake dt r s).IceMelt = 0 := by
  unfold stageA
  rw [(refreezeStep_invariants C dt (applyEB (eb 0) (initState C snow lake r s))).2.2.1]
  rfl

theorem stageB_wsum (C : Consts) (eb : ℚ → EBOut) (rb : ℚ)
    (snow : snow_data_struct) (lake : lake_var_struct) (dt r s : ℚ) :
    wsum (stageB C eb rb snow lake dt r s) =
      snow.swq + lake.hice * C.RHOICE / C.RHO_W + r / 1000 + s / 1000 := by
  unfold stageB
  rw [(freezeAll_mass C dt
    (solveApply rb (eb rb) (applyEB (eb 0) (initState C snow lake r s)))).1]
  show wsum (applyEB (eb rb) _) = _
  rw [wsum_applyEB]
  show wsum (applyEB (eb 0) (initState C snow lake r s)) = _
  rw [wsum_applyEB, wsum_initState]

theorem stageB_IceMelt (C : Consts) (eb : ℚ → EBOut) (rb : ℚ)
    (snow : snow_data_struct) (lake : lake_var_struct) (dt r s : ℚ) :
    (stageB C eb rb snow lake dt r s).IceMelt = 0 := by
  unfold stageB
  rw [(freezeAll_mass C dt
    (solveApply rb (eb rb) (applyEB (eb 0) (initState C snow lake r s)))).2.2]
  rfl

/-- C2 (amended): for every completing call under the preconditions, the
stored diagnostic equals
`(initialSWE - finalSWE) + (initialLakeIce - finalLakeIce) +
(rain + snow) - iceMeltToLake - surfaceMeltOutput + vaporFlux`
(with the melt output converted back to meters and the sign flip of the
stored vapor flux undone); and the residual is exactly zero in exact
arithmetic provided the call stays on a conservative path
(`conservativePath`): the amendment excludes the total-exhaustion vapor
clamp with surface liquid present and the snow-free subfreezing path
that routes a nonzero vapor flux to the lake volume. -/
theorem C2_mass_balance_amended (C : Consts) (eb : ℚ → EBOut) (rb : ℚ)
    (snow : snow_data_struct) (lake : lake_var_struct) (dt r s f d : ℚ)
    (out : IceMeltOut)
    (hpre : Preconds snow lake dt r s) (hC : C.ok)
    (hpath : conservativePath C eb rb snow lake dt r s)
    (h : ice_melt C eb rb snow lake dt r s f d = IceMeltResult.ok out) :
    out.snow.mass_error =
      (snow.swq - out.snow.swq) +
      (lake.hice * C.RHOICE / C.RHO_W - out.LakeIce) + (r / 1000 + s / 1000) -
      out.IceMelt - out.melt / 1000 + (-(out.snow.vapor_flux)) ∧
    out.snow.mass_error = 0 := by
  unfold ice_melt at h
  split_ifs at h with h1 h2
  · injection h with h
    subst h
    constructor
    · exact finishStep_formula ..
    · show (finishStep C snow.swq (lake.hice * C.RHOICE / C.RHO_W) (r / 1000)
        (s / 1000) d (eb 0)
        (meltPartition (vaporAdjust3 f (stageA C eb snow lake dt r s)))).snow.mass_error = 0
      have hpA : -((stageA C eb snow lake dt r s).snow.vapor_flux) ≤
          wsum (stageA C eb snow lake dt r s) := by
        unfold conservativePath at hpath
        rw [if_pos h1] at hpath
        exact hpath
      obtain ⟨hm3, hI3, hS3⟩ := vaporAdjust3_mass f (stageA C eb snow lake dt r s) hpA
      obtain ⟨hm4, hv4⟩ := meltPartition_mass (vaporAdjust3 f (stageA C eb snow lake dt r s))
        (by rw [hI3, stageA_IceMelt])
      rw [finishStep_mass, hm4, hm3, hv4, stageA_wsum]
      ring
  · injection h with h
    subst h
    constructor
    · exact finishStep_formula ..
    · show (finishStep C snow.swq (lake.hice * C.RHOICE / C.RHO_W) (r / 1000)
        (s / 1000) d (eb rb)
        (vaporAdjust2 f (stageB C eb rb snow lake dt r s))).snow.mass_error = 0
      have hpB : 0 < (stageB C eb rb snow lake dt r s).SnowIce ∨
          (stageB C eb rb snow lake dt r s).snow.vapor_flux = 0 := by
        unfold conservativePath at hpath
        rw [if_neg h1] at hpath
        exact hpath
      obtain ⟨hm4, hI4⟩ := vaporAdjust2_mass f (stageB C eb rb snow lake dt r s) hpB
      rw [finishStep_mass, hm4, hI4, stageB_IceMelt, stageB_wsum]
      ring

/-- Counterexample to C2 as stated: a completing subfreezing call
satisfying the preconditions (snow-free lake with ice, nonzero vapor
flux) stores a mass-balance diagnostic of 0.5 m, not zero — the flux is
routed to the lake volume but still counted in the residual. -/
theorem C2_mass_balance_counterexample :
    Preconds sC2 lEx 1 0 0 ∧
    resultMassError (ice_melt Cstd ebC2 (-1) sC2 lEx 1 0 0 (1/2) 0) = 1/2 := by
  constructor
  · norm_num [Preconds, sC2, lEx]
  · norm_num [resultMassError, ice_melt, initState, applyEB, solveApply, freezeAll,
      vaporAdjust2, finishStep, cappedSurfWater, meltExcess, MaxLiquidWater, hiceRaw,
      Cstd, sC2, lEx, ebC2]

/-- Witness for C2 (amended) at a concrete isothermal run. -/
theorem C2_mass_balance_amended_witness :
    outIso.snow.mass_error =
      (sEx.swq - outIso.snow.swq) +
      (lEx.hice * Cstd.RHOICE / Cstd.RHO_W - outIso.LakeIce) +
      ((0 : ℚ) / 1000 + (0 : ℚ) / 1000) -
      outIso.IceMelt - outIso.melt / 1000 + (-(outIso.snow.vapor_flux)) ∧
    outIso.snow.mass_error = 0 :=
  C2_mass_balance_amended Cstd ebIso 5 sEx lEx 1 0 0 (1/2) 0 outIso
    (by norm_num [Preconds, sEx, lEx])
    (by norm_num [Consts.ok, Cstd])
    (by norm_num [conservativePath, stageA, refreezeStep, refrozenWater,
      RefrozenWater0, refreezeEnergyCapped, applyEB, initState, wsum,
      Cstd, sEx, lEx, ebIso])
    (by norm_num [outIso, okOutput, ice_melt, initState, applyEB, refreezeStep,
      refrozenWater, RefrozenWater0, refreezeEnergyCapped, vaporAdjust3,
      meltPartition, finishStep, cappedSurfWater, meltExcess, MaxLiquidWater,
      hiceRaw, Cstd, sEx, lEx, ebIso])

/-! ### Sign lemmas for C3 -/

theorem initState_signs (C : Consts) (snow : snow_data_struct)
    (lake : lake_var_struct) (r s : ℚ) (hC : C.ok)
    (hw : 0 ≤ snow.surf_water) (hsw : snow.surf_water ≤ snow.swq)
    (hh : 0 ≤ lake.hice) (hr : 0 ≤ r) (hs : 0 ≤ s) :
    0 ≤ (initState C snow lake r s).SnowIce ∧
    0 ≤ (initState C snow lake r s).snow.surf_water ∧
    0 ≤ (initState C snow lake r s).LakeIce := by
  refine ⟨?_, ?_, ?_⟩
  · show 0 ≤ snow.swq - snow.surf_water + s / 1000
    have hs2 : 0 ≤ s / 1000 := div_nonneg hs (by norm_num)
    linarith
  · show 0 ≤ snow.surf_water + r / 1000
    have hr2 : 0 ≤ r / 1000 := div_nonneg hr (by norm_num)
    linarith
  · show 0 ≤ lake.hice * C.RHOICE / C.RHO_W
    exact div_nonneg (mul_nonneg hh hC.1.le) hC.2.1.le

theorem refreezeStep_signs (C : Consts) (dt : ℚ) (st : MeltSt)
    (hC : C.ok) (hdt : 0 < dt)
    (hSI : 0 ≤ st.SnowIce) (hw : 0 ≤ st.snow.surf_water) :
    0 ≤ (refreezeStep C dt st).SnowIce ∧
    0 ≤ (refreezeStep C dt st).snow.surf_water ∧
    0 ≤ (refreezeStep C dt st).SnowMelt := by
  obtain ⟨hpi, hpw, hLf, hsec, hlwc⟩ := hC
  unfold refreezeStep refrozenWater RefrozenWater0
  split_ifs with h1 h2
  · exact ⟨by dsimp only; linarith, by dsimp only; linarith,
      by dsimp only; norm_num⟩
  · have hrw : 0 ≤ st.RefreezeEnergy / (C.Lf * C.RHO_W) * dt * C.SECPHOUR :=
      mul_nonneg (mul_nonneg (div_nonneg h1 (mul_pos hLf hpw).le) hdt.le) hsec.le
    exact ⟨by dsimp only; linarith, by dsimp only; linarith [le_of_not_lt h2],
      by dsimp only; norm_num⟩
  · have habs : 0 ≤ |st.RefreezeEnergy| / (C.Lf * C.RHO_W) * dt * C.SECPHOUR :=
      mul_nonneg (mul_nonneg (div_nonneg (abs_nonneg st.RefreezeEnergy)
        (mul_pos hLf hpw).le) hdt.le) hsec.le
    exact ⟨hSI, hw, habs⟩

theorem vaporAdjust3_signs (f : ℚ) (st : MeltSt)
    (hSI : 0 ≤ st.SnowIce) (hw : 0 ≤ st.snow.surf_water) (hLI : 0 ≤ st.LakeIce)
    (hne : st.SnowIce + st.snow.surf_water + st.LakeIce ≠ -(st.snow.vapor_flux)) :
    0 ≤ (vaporAdjust3 f st).SnowIce ∧
    0 ≤ (vaporAdjust3 f st).snow.surf_water ∧
    (vaporAdjust3 f st).SnowMelt = st.SnowMelt := by
  unfold vaporAdjust3
  split_ifs with h1 h2 h3
  · exact ⟨le_refl 0, hw, rfl⟩
  · exact ⟨le_refl 0, hw, rfl⟩
  · push_neg at h1 h2
    have hgt : -(st.snow.vapor_flux) <
        st.SnowIce + st.snow.surf_water + st.LakeIce :=
      lt_of_le_of_ne h1 (fun hx => hne hx.symm)
    have hxx : -(st.snow.vapor_flux) ≤ st.SnowIce + st.snow.surf_water := by
      by_cases hx : st.SnowIce + st.snow.surf_water < -(st.snow.vapor_flux)
      · exact absurd hgt (not_lt.mpr (h2 hx))
      · exact le_of_not_lt hx
    exact ⟨by dsimp only; linarith, by dsimp only; norm_num, rfl⟩
  · push_neg at h3
    exact ⟨hSI, by dsimp only; linarith, rfl⟩

theorem meltPartition_signs (st : MeltSt)
    (hSI : 0 ≤ st.SnowIce) (hw : 0 ≤ st.snow.surf_water) (hM : 0 ≤ st.SnowMelt) :
    0 ≤ (meltPartition st).SnowIce ∧ 0 ≤ (meltPartition st).snow.surf_water := by
  unfold meltPartition
  split_ifs with h1 h2
  · exact ⟨by dsimp only; linarith, by dsimp only; linarith⟩
  · exact ⟨by dsimp only; norm_num, by dsimp only; linarith⟩
  · exact ⟨by dsimp only; norm_num, by dsimp only; linarith⟩

theorem vaporAdjust2_signs (f : ℚ) (st : MeltSt)
    (hSI : 0 ≤ st.SnowIce) (hLI : 0 ≤ st.LakeIce)
    (hne : st.SnowIce + st.LakeIce ≠ -(st.snow.vapor_flux)) :
    0 ≤ (vaporAdjust2 f st).SnowIce ∧
    (vaporAdjust2 f st).snow.surf_water = st.snow.surf_water := by
  unfold vaporAdjust2
  split_ifs with h1 h2 h3
  · exact ⟨le_refl 0, rfl⟩
  · exact ⟨le_refl 0, rfl⟩
  · push_neg at h1 h2
    have hgt : -(st.snow.vapor_flux) < st.SnowIce + st.LakeIce :=
      lt_of_le_of_ne h1 (fun hx => hne hx.symm)
    have hxx : -(st.snow.vapor_flux) ≤ st.SnowIce := by
      by_cases hx : st.SnowIce < -(st.snow.vapor_flux)
      · exact absurd hgt (not_lt.mpr (h2 hx))
      · exact le_of_not_lt hx
    exact ⟨by dsimp only; linarith, rfl⟩
  · exact ⟨hSI, rfl⟩

theorem finishStep_signs (C : Consts) (a b r s d : ℚ) (e : EBOut) (st : MeltSt)
    (hlwc : 0 ≤ C.LIQUID_WATER_CAPACITY)
    (hSI : 0 ≤ st.SnowIce) (hw : 0 ≤ st.snow.surf_water) :
    0 ≤ (finishStep C a b r s d e st).snow.swq ∧
    0 ≤ (finishStep C a b r s d e st).lake.hice := by
  have hcap : 0 ≤ C.LIQUID_WATER_CAPACITY * st.SnowIce := mul_nonneg hlwc hSI
  unfold finishStep cappedSurfWater meltExcess MaxLiquidWater hiceRaw
  split_ifs with h1 h2 h3
  · exact ⟨by dsimp only; linarith, by dsimp only; norm_num⟩
  · exact ⟨by dsimp only; linarith, by dsimp only; linarith [lt_of_not_le h2]⟩
  · exact ⟨by dsimp only; linarith, by dsimp only; norm_num⟩
  · exact ⟨by dsimp only; linarith, by dsimp only; linarith [lt_of_not_le h3]⟩

/-- C3 (amended): for every completing call under the preconditions
(with nonnegative precipitation forcing and sane constants), the output
snow water equivalent and lake ice thickness are nonnegative, provided
the vapor-flux demand does not exactly equal the total available
reservoir mass in the branch taken (`noExactExhaust`) — on that exact
boundary the clamp guards (written with strict inequalities) leak a
negative snow water equivalent. -/
theorem C3_nonnegative_outputs_amended (C : Consts) (eb : ℚ → EBOut) (rb : ℚ)
    (snow : snow_data_struct) (lake : lake_var_struct) (dt r s f d : ℚ)
    (out : IceMeltOut)
    (hpre : Preconds snow lake dt r s) (hC : C.ok)
    (hne : noExactExhaust C eb rb snow lake dt r s)
    (h : ice_melt C eb rb snow lake dt r s f d = IceMeltResult.ok out) :
    0 ≤ out.snow.swq ∧ 0 ≤ out.lake.hice := by
  obtain ⟨hdt, hw0, hsw, hh, hr, hs⟩ := hpre
  unfold ice_melt at h
  split_ifs at h with h1 h2
  · injection h with h
    subst h
    have h0 := initState_signs C snow lake r s hC hw0 hsw hh hr hs
    have h2s := refreezeStep_signs C dt (applyEB (eb 0) (initState C snow lake r s))
      hC hdt h0.1 h0.2.1
    have hLI2 : 0 ≤ (refreezeStep C dt
        (applyEB (eb 0) (initState C snow lake r s))).LakeIce := by
      rw [(refreezeStep_invariants C dt
        (applyEB (eb 0) (initState C snow lake r s))).2.2.2]
      exact h0.2.2
    have hneA : (refreezeStep C dt (applyEB (eb 0)
          (initState C snow lake r s))).SnowIce +
        (refreezeStep C dt (applyEB (eb 0)
          (initState C snow lake r s))).snow.surf_water +
        (refreezeStep C dt (applyEB (eb 0)
          (initState C snow lake r s))).LakeIce ≠
        -((refreezeStep C dt (applyEB (eb 0)
          (initState C snow lake r s))).snow.vapor_flux) := by
      unfold noExactExhaust at hne
      rw [if_pos h1] at hne
      exact hne
    have h3s := vaporAdjust3_signs f _ h2s.1 h2s.2.1 hLI2 hneA
    have h4s := meltPartition_signs
      (vaporAdjust3 f (refreezeStep C dt (applyEB (eb 0) (initState C snow lake r s))))
      h3s.1 h3s.2.1 (by rw [h3s.2.2]; exact h2s.2.2)
    exact finishStep_signs C snow.swq (lake.hice * C.RHOICE / C.RHO_W)
      (r / 1000) (s / 1000) d (eb 0) _ hC.2.2.2.2 h4s.1 h4s.2
  · injection h with h
    subst h
    have h0 := initState_signs C snow lake r s hC hw0 hsw hh hr hs
    have hSI3 : 0 ≤ (freezeAll C dt (solveApply rb (eb rb)
        (applyEB (eb 0) (initState C snow lake r s)))).SnowIce := by
      show 0 ≤ (initState C snow lake r s).SnowIce +
        (initState C snow lake r s).snow.surf_water
      linarith [h0.1, h0.2.1]
    have hLI3 : 0 ≤ (freezeAll C dt (solveApply rb (eb rb)
        (applyEB (eb 0) (initState C snow lake r s)))).LakeIce := h0.2.2
    have hneB : (freezeAll C dt (solveApply rb (eb rb)
          (applyEB (eb 0) (initState C snow lake r s)))).SnowIce +
        (freezeAll C dt (solveApply rb (eb rb)
          (applyEB (eb 0) (initState C snow lake r s)))).LakeIce ≠
        -((freezeAll C dt (solveApply rb (eb rb)
          (applyEB (eb 0) (initState C snow lake r s)))).snow.vapor_flux) := by
      unfold noExactExhaust at hne
      rw [if_neg h1] at hne
      exact hne
    have h4s := vaporAdjust2_signs f
      (freezeAll C dt (solveApply rb (eb rb)
        (applyEB (eb 0) (initState C snow lake r s)))) hSI3 hLI3 hneB
    have hw4 : 0 ≤ (vaporAdjust2 f (freezeAll C dt (solveApply rb (eb rb)
        (applyEB (eb 0) (initState C snow lake r s))))).snow.surf_water := by
      rw [h4s.2]
      exact le_refl 0
    exact finishStep_signs C snow.swq (lake.hice * C.RHOICE / C.RHO_W)
      (r / 1000) (s / 1000) d (eb rb) _ hC.2.2.2.2 h4s.1 hw4

/-- Counterexample to C3 as stated: on the exact-exhaustion boundary
(no snow, lake ice 0.01 m water equivalent, sublimation demand exactly
0.01 m) a completing call satisfying the preconditions outputs a
strictly negative snow water equivalent of -0.01 m. -/
theorem C3_nonnegative_outputs_counterexample :
    Preconds sC2 lC3 1 0 0 ∧
    resultSwq (ice_melt Cstd ebC3 0 sC2 lC3 1 0 0 (1/2) 0) = -(1/100) := by
  constructor
  · norm_num [Preconds, sC2, lC3]
  · norm_num [resultSwq, ice_melt, initState, applyEB, refreezeStep, refrozenWater,
      RefrozenWater0, refreezeEnergyCapped, vaporAdjust3, meltPartition, finishStep,
      cappedSurfWater, meltExcess, MaxLiquidWater, hiceRaw, Cstd, sC2, lC3, ebC3]

/-- Witness for C3 (amended) at a concrete isothermal run. -/
theorem C3_nonnegative_outputs_amended_witness :
    0 ≤ outIso.snow.swq ∧ 0 ≤ outIso.lake.hice :=
  C3_nonnegative_outputs_amended Cstd ebIso 5 sEx lEx 1 0 0 (1/2) 0 outIso
    (by norm_num [Preconds, sEx, lEx])
    (by norm_num [Consts.ok, Cstd])
    (by norm_num [noExactExhaust, stageA, refreezeStep, refrozenWater,
      RefrozenWater0, refreezeEnergyCapped, applyEB, initState, wsum,
      Cstd, sEx, lEx, ebIso])
    (by norm_num [outIso, okOutput, ice_melt, initState, applyEB, refreezeStep,
      refrozenWater, RefrozenWater0, refreezeEnergyCapped, vaporAdjust3,
      meltPartition, finishStep, cappedSurfWater, meltExcess, MaxLiquidWater,
      hiceRaw, Cstd, sEx, lEx, ebIso])

end VIC
